import Mathlib

/-!
Shallow embedding of the verification harness scripts of the repository
(src/verification/verify_sheet.py and src/verification/verify.py).

Each script is modelled as a pure function from an environment — an oracle
deciding which fallible browser operations succeed — to the trace of
observable events the script performs plus whether an uncaught exception
surfaced out of the script.  Every statement of the Python source is
represented by an event; control flow (the retry loop, the try/except
blocks, the conditional element capture) is translated verbatim.
-/

namespace MusicNoteVerification

/-- Observable events performed by the scripts, one per effectful Python
statement: browser launch, page creation, `print` calls, `page.goto`
attempts, `time.sleep`, `page.wait_for_selector` (with its explicit
timeout in ms, `none` for the library default), `page.click`,
`page.fill`, `page.screenshot`, `locator.screenshot`, `browser.close`. -/
inductive Event where
  | launchBrowser : Event
  | newPage : Event
  | log : String → Event
  | gotoAttempt : String → Event
  | sleepMs : Nat → Event
  | waitForSelector : String → Option Nat → Event
  | click : String → Event
  | fill : String → String → Event
  | screenshotFull : String → Event
  | screenshotElement : String → Event
  | closeBrowser : Event
deriving DecidableEq, Repr

/-- Environment oracle for `verify_sheet_music`: decides, for each fallible
browser operation of the script, whether it succeeds.  `gotoOk i` is the
outcome of the i-th `page.goto` attempt; the booleans are the outcomes of
the selector waits, clicks and fill; `detailCount` is the value of
`element.count()` for the detail-container locator. -/
structure Env where
  gotoOk : Nat → Bool
  titleOk : Bool
  clickSourceOk : Bool
  fillUrlOk : Bool
  clickLoadOk : Bool
  toastOk : Bool
  svgOk : Bool
  detailCount : Nat

/-- Result of a run: the event trace, and whether an uncaught exception
surfaced out of the script (`raised = true` means the process terminates
with a failure status and the statements after the failure point never
execute). -/
structure RunResult where
  trace : List Event
  raised : Bool
deriving DecidableEq, Repr

/- Selector and path literals of verify_sheet.py (apostrophes written as
\x27 escapes). -/

def titleSelector : String := "text=Music Note Creator"

def sourceButtonSelector : String := "button[title=\x27Use YouTube Source\x27]"

def urlInputSelector : String := "input[placeholder=\x27Paste YouTube URL...\x27]"

def loadButtonSelector : String := "button[title=\x27Load Video\x27]"

def toastSelector : String := "text=Video Loaded"

def svgSelector : String := "svg"

def detailSelector : String := "div.w-full.h-\\[400px\\]"

def fullShotPath : String := "verification/sheet_music_full.png"

def detailShotPath : String := "verification/sheet_music_detail.png"

def targetUrl : String := "http://localhost:3000"

def youtubeUrl : String := "https://www.youtube.com/watch?v=dQw4w9WgXcQ"

/-- The retry loop of verify_sheet.py lines 14-20:
`for i in range(10): try: page.goto(url); break
 except Exception as e: print(...); time.sleep(2)`.
`i` is the current loop index, the second argument the remaining
iterations.  A successful attempt breaks out; a failed attempt logs and
sleeps 2 seconds, including after the final attempt. -/
def connectLoop (gotoOk : Nat → Bool) : Nat → Nat → List Event
  | _, 0 => []
  | i, Nat.succ n =>
    Event.gotoAttempt targetUrl ::
      if gotoOk i then []
      else
        Event.log ("Connection attempt " ++ toString i ++ " failed") ::
          Event.sleepMs 2000 :: connectLoop gotoOk (i + 1) n

/-- Events before the retry loop: `browser = p.chromium.launch(...)`,
`page = browser.new_page()`, `print(f"Connecting to localhost:{port}")`
with port = 3000. -/
def startEvents : List Event :=
  [Event.launchBrowser, Event.newPage, Event.log "Connecting to localhost:3000"]

/-- verify_sheet.py lines 22-64, everything after the retry loop.  The
title wait, the two clicks and the fill are unguarded: a failure there
raises out of the function and nothing further executes (in particular
`browser.close()` does not).  The toast wait and the svg wait are each
wrapped in try/except, so their failures are absorbed.  The detail
capture happens only when `element.count() > 0`. -/
def bodyRun (env : Env) : RunResult :=
  let t0 := [Event.log "Waiting for title...",
             Event.waitForSelector titleSelector none]
  if !env.titleOk then ⟨t0, true⟩ else
  let t1 := t0 ++ [Event.log "App loaded.", Event.click sourceButtonSelector]
  if !env.clickSourceOk then ⟨t1, true⟩ else
  let t2 := t1 ++ [Event.fill urlInputSelector youtubeUrl]
  if !env.fillUrlOk then ⟨t2, true⟩ else
  let t3 := t2 ++ [Event.click loadButtonSelector]
  if !env.clickLoadOk then ⟨t3, true⟩ else
  let t4 := t3 ++ [Event.log "Video loading initiated...",
                   Event.waitForSelector toastSelector (some 15000)] ++
            (if env.toastOk then [Event.log "Video loaded toast confirmed."]
             else [Event.log "Toast not found, maybe missed it. Checking for SVG..."])
  let t5 := t4 ++ [Event.waitForSelector svgSelector (some 15000)] ++
            (if env.svgOk then [Event.log "SVG element found."]
             else [Event.log "No SVG found yet."])
  let t6 := t5 ++ [Event.screenshotFull fullShotPath,
                   Event.log "Full page screenshot taken."]
  let t7 := t6 ++ (if env.detailCount > 0
                   then [Event.screenshotElement detailShotPath,
                         Event.log "Detail screenshot taken."]
                   else [])
  ⟨t7 ++ [Event.closeBrowser], false⟩

/-- verify_sheet.py, `verify_sheet_music()`: start events, then the retry
loop, then the body.  The loop itself cannot raise (its only fallible
operation is inside try/except), so the run's outcome is the body's. -/
def verify_sheet_music (env : Env) : RunResult :=
  ⟨startEvents ++ connectLoop env.gotoOk 0 10 ++ (bodyRun env).trace,
   (bodyRun env).raised⟩

/-- Environment for verify.py `run()`: the single `page.goto` outcome. -/
structure EnvV where
  gotoOk : Bool

/-- verify.py, `run()`: launch, new page, one navigation to port 4173
(unguarded: a failure raises and nothing else executes), `time.sleep(2)`,
a full-page screenshot, `browser.close()`. -/
def run (env : EnvV) : RunResult :=
  let t0 := [Event.launchBrowser, Event.newPage,
             Event.gotoAttempt "http://localhost:4173"]
  if !env.gotoOk then ⟨t0, true⟩
  else ⟨t0 ++ [Event.sleepMs 2000,
               Event.screenshotFull "verification/screenshot.png",
               Event.closeBrowser], false⟩

/- Observables over traces. -/

/-- Is the event a `page.goto` attempt? -/
def isGoto : Event → Bool
  | Event.gotoAttempt _ => true
  | _ => false

/-- Is the event a `time.sleep`? -/
def isSleep : Event → Bool
  | Event.sleepMs _ => true
  | _ => false

/-- Is the event a selector wait? -/
def isWait : Event → Bool
  | Event.waitForSelector _ _ => true
  | _ => false

/-- Is the event `browser.close()`? -/
def isClose : Event → Bool
  | Event.closeBrowser => true
  | _ => false

/-- Number of `page.goto` attempts in a trace. -/
def gotoCount (t : List Event) : Nat := t.countP isGoto

/-- Number of `browser.close()` calls in a trace. -/
def closeCount (t : List Event) : Nat := t.countP isClose

/-- Number of selector waits in a trace. -/
def waitCount (t : List Event) : Nat := t.countP isWait

/-- Number of sleeps in a trace. -/
def sleepCount (t : List Event) : Nat := t.countP isSleep

/-- The artifact files written by a trace, in order. -/
def artifactPaths (t : List Event) : List String :=
  t.filterMap fun e =>
    match e with
    | Event.screenshotFull p => some p
    | Event.screenshotElement p => some p
    | _ => none

/-- The log messages printed by a trace, in order. -/
def logMessages (t : List Event) : List String :=
  t.filterMap fun e =>
    match e with
    | Event.log m => some m
    | _ => none

/-- The retry loop's trace when every attempt fails: each of the `n`
attempts is followed by a failure log and a 2-second sleep — including the
final one. -/
def failedConnTrace : Nat → Nat → List Event
  | _, 0 => []
  | i, Nat.succ n =>
      Event.gotoAttempt targetUrl ::
        Event.log ("Connection attempt " ++ toString i ++ " failed") ::
          Event.sleepMs 2000 :: failedConnTrace (i + 1) n

/-- The events the detail-capture stage contributes: the element screenshot
and its log when the locator matched, nothing at all otherwise. -/
def detailSection (dc : Nat) : List Event :=
  if 0 < dc then
    [Event.screenshotElement detailShotPath, Event.log "Detail screenshot taken."]
  else []

/-- The trace of a run that reaches the capture stage, up to and including
the full-page capture — everything before the detail-capture stage. -/
def commonTrace (env : Env) : List Event :=
  startEvents ++ connectLoop env.gotoOk 0 10 ++
    [Event.log "Waiting for title...", Event.waitForSelector titleSelector none,
     Event.log "App loaded.", Event.click sourceButtonSelector,
     Event.fill urlInputSelector youtubeUrl, Event.click loadButtonSelector,
     Event.log "Video loading initiated...",
     Event.waitForSelector toastSelector (some 15000)] ++
    (if env.toastOk then [Event.log "Video loaded toast confirmed."]
     else [Event.log "Toast not found, maybe missed it. Checking for SVG..."]) ++
    [Event.waitForSelector svgSelector (some 15000)] ++
    (if env.svgOk then [Event.log "SVG element found."]
     else [Event.log "No SVG found yet."]) ++
    [Event.screenshotFull fullShotPath, Event.log "Full page screenshot taken."]

/-- Is the event one of the scripted interaction/wait/capture/close steps
(as opposed to a navigation attempt, a log line, or a sleep)? -/
def isActionEvent : Event → Bool
  | Event.waitForSelector _ _ => true
  | Event.click _ => true
  | Event.fill _ _ => true
  | Event.screenshotFull _ => true
  | Event.screenshotElement _ => true
  | Event.closeBrowser => true
  | _ => false

/-- The scripted step sequence of verify_sheet.py in source order. -/
def scriptedSteps : List Event :=
  [Event.waitForSelector titleSelector none,
   Event.click sourceButtonSelector,
   Event.fill urlInputSelector youtubeUrl,
   Event.click loadButtonSelector,
   Event.waitForSelector toastSelector (some 15000),
   Event.waitForSelector svgSelector (some 15000),
   Event.screenshotFull fullShotPath,
   Event.screenshotElement detailShotPath,
   Event.closeBrowser]

/-- Environment in which every browser operation succeeds and the detail
locator matches one element. -/
def envAll : Env :=
  { gotoOk := fun _ => true, titleOk := true, clickSourceOk := true,
    fillUrlOk := true, clickLoadOk := true, toastOk := true, svgOk := true,
    detailCount := 1 }

/-- Environment in which the title wait times out (everything else fine). -/
def envNoTitle : Env := { envAll with titleOk := false }

/-- Environment in which every navigation attempt fails and consequently
the title wait times out on the blank page. -/
def envNoGoto : Env := { envAll with gotoOk := fun _ => false, titleOk := false }

/-- Environment in which the svg wait times out (everything else fine). -/
def envNoSvg : Env := { envAll with svgOk := false }

/-- Environment in which the detail locator matches nothing. -/
def envNoDetail : Env := { envAll with detailCount := 0 }

/-- Environment in which the toast wait and the svg wait both time out. -/
def envNoToastSvg : Env := { envAll with toastOk := false, svgOk := false }

/-- Environment in which only the toast wait times out. -/
def envNoToast : Env := { envAll with toastOk := false }

/-- Any per-event predicate rejecting navigation attempts, logs and sleeps
finds nothing in the retry loop's trace. -/
lemma connectLoop_filter (g : Nat → Bool) (p : Event → Bool)
    (h1 : ∀ u, p (Event.gotoAttempt u) = false)
    (h2 : ∀ s, p (Event.log s) = false)
    (h3 : ∀ m, p (Event.sleepMs m) = false) :
    ∀ i n, (connectLoop g i n).filter p = [] := by
  intro i n
  induction n generalizing i with
  | zero => rfl
  | succ n ih =>
    by_cases h : g i = true
    · simp [connectLoop, h, List.filter_cons, h1]
    · simp [connectLoop, h, List.filter_cons, h1, h2, h3, ih]

lemma connectLoop_closeCount (g : Nat → Bool) (i n : Nat) :
    closeCount (connectLoop g i n) = 0 := by
  rw [closeCount, List.countP_eq_length_filter,
    connectLoop_filter g isClose (fun _ => rfl) (fun _ => rfl) (fun _ => rfl)]
  rfl

lemma connectLoop_gotoCount_le (g : Nat → Bool) (i n : Nat) :
    gotoCount (connectLoop g i n) ≤ n := by
  induction n generalizing i with
  | zero => simp [connectLoop, gotoCount]
  | succ n ih =>
    by_cases h : g i = true
    · simp [connectLoop, h, gotoCount, List.countP_cons, isGoto]
    · simp only [connectLoop, h]
      simp [gotoCount, List.countP_cons, isGoto] at ih ⊢
      exact ih (i + 1)

lemma connectLoop_artifacts (g : Nat → Bool) (i n : Nat) :
    artifactPaths (connectLoop g i n) = [] := by
  induction n generalizing i with
  | zero => rfl
  | succ n ih =>
    by_cases h : g i = true
    · simp [connectLoop, h, artifactPaths]
    · simp only [connectLoop, h]
      simp [artifactPaths] at ih ⊢
      exact ih (i + 1)

lemma bodyRun_spec (env : Env) :
    gotoCount (bodyRun env).trace = 0
  ∧ sleepCount (bodyRun env).trace = 0
  ∧ closeCount (bodyRun env).trace = (if (bodyRun env).raised then 0 else 1)
  ∧ ((bodyRun env).raised = true → artifactPaths (bodyRun env).trace = [])
  ∧ ((bodyRun env).raised = false →
       artifactPaths (bodyRun env).trace =
         if 0 < env.detailCount then [fullShotPath, detailShotPath]
         else [fullShotPath])
  ∧ (bodyRun env).trace.take 2 = [Event.log "Waiting for title...",
                                  Event.waitForSelector titleSelector none]
  ∧ ((bodyRun env).raised = false ↔
       (env.titleOk = true ∧ env.clickSourceOk = true ∧
        env.fillUrlOk = true ∧ env.clickLoadOk = true)) := by
  obtain ⟨g, t, c1, f, c2, tw, sv, dc⟩ := env
  by_cases hdc : 0 < dc <;>
    cases t <;> cases c1 <;> cases f <;> cases c2 <;> cases tw <;> cases sv <;>
      simp [bodyRun, hdc, gotoCount, sleepCount, closeCount, artifactPaths,
        isGoto, isSleep, isClose, List.countP_cons, List.countP_append]

/-- Decomposition: the run's raised flag is the body's. -/
lemma trace_raised (env : Env) :
    (verify_sheet_music env).raised = (bodyRun env).raised := rfl

lemma trace_closeCount (env : Env) :
    closeCount (verify_sheet_music env).trace = closeCount (bodyRun env).trace := by
  show closeCount (startEvents ++ connectLoop env.gotoOk 0 10 ++ (bodyRun env).trace) = _
  rw [closeCount, List.countP_append, List.countP_append]
  have h := connectLoop_closeCount env.gotoOk 0 10
  rw [closeCount] at h
  rw [h]
  simp [startEvents, List.countP_cons, isClose, closeCount]

lemma trace_artifacts (env : Env) :
    artifactPaths (verify_sheet_music env).trace = artifactPaths (bodyRun env).trace := by
  show artifactPaths (startEvents ++ connectLoop env.gotoOk 0 10 ++ (bodyRun env).trace) = _
  rw [artifactPaths, List.filterMap_append, List.filterMap_append]
  have h := connectLoop_artifacts env.gotoOk 0 10
  rw [artifactPaths] at h
  rw [h]
  simp [startEvents, artifactPaths]

lemma trace_gotoCount (env : Env) :
    gotoCount (verify_sheet_music env).trace = gotoCount (connectLoop env.gotoOk 0 10) := by
  show gotoCount (startEvents ++ connectLoop env.gotoOk 0 10 ++ (bodyRun env).trace) = _
  rw [gotoCount, List.countP_append, List.countP_append]
  have h := (bodyRun_spec env).1
  rw [gotoCount] at h
  rw [h]
  simp [startEvents, List.countP_cons, isGoto, gotoCount]

lemma trace_sleepCount (env : Env) :
    sleepCount (verify_sheet_music env).trace = sleepCount (connectLoop env.gotoOk 0 10) := by
  show sleepCount (startEvents ++ connectLoop env.gotoOk 0 10 ++ (bodyRun env).trace) = _
  rw [sleepCount, List.countP_append, List.countP_append]
  have h := (bodyRun_spec env).2.1
  rw [sleepCount] at h
  rw [h]
  simp [startEvents, List.countP_cons, isSleep, sleepCount]

lemma connectLoop_all_fail (g : Nat → Bool) (hg : ∀ i, g i = false) :
    ∀ i n, connectLoop g i n = failedConnTrace i n := by
  intro i n
  induction n generalizing i with
  | zero => rfl
  | succ n ih => simp [connectLoop, failedConnTrace, hg, ih]

lemma bodyRun_raised_of_titleFail (env : Env) (ht : env.titleOk = false) :
    (bodyRun env).raised = true := by
  cases hr : (bodyRun env).raised
  · have h := ((bodyRun_spec env).2.2.2.2.2.2.mp hr).1
    rw [ht] at h
    exact Bool.noConfusion h
  · rfl

lemma bodyRun_filter_action (env : Env) :
    ((bodyRun env).trace.filter isActionEvent).Sublist scriptedSteps
  ∧ ((bodyRun env).trace.filter isActionEvent).Nodup
  ∧ (env.titleOk = true → env.clickSourceOk = true → env.fillUrlOk = true →
      env.clickLoadOk = true → 0 < env.detailCount →
      (bodyRun env).trace.filter isActionEvent = scriptedSteps) := by
  obtain ⟨g, t, c1, f, c2, tw, sv, dc⟩ := env
  by_cases hdc : 0 < dc <;>
    cases t <;> cases c1 <;> cases f <;> cases c2 <;> cases tw <;> cases sv <;>
      simp [bodyRun, hdc, isActionEvent] <;> decide

end MusicNoteVerification

namespace MusicNoteVerification

/-- C1 counterexample: with every operation succeeding except the title
wait, a failure surfaces (`raised = true`) and the script performs zero
`browser.close()` calls before it does — the handle is not released on
this exit path, contrary to the claim. -/
theorem handle_not_closed_on_failure :
    (verify_sheet_music envNoTitle).raised = true ∧
    closeCount (verify_sheet_music envNoTitle).trace = 0 := by decide

/-- C1 (amended): the browser handle is closed exactly once on runs that
complete without a surfaced failure, and zero times on every run where a
failure surfaces — the script's `browser.close()` is only on the
all-success path (teardown on failure paths is left to the enclosing
`sync_playwright` context manager, not performed by the script). -/
theorem browser_close_only_on_success (env : Env) :
    ((verify_sheet_music env).raised = false →
       closeCount (verify_sheet_music env).trace = 1)
  ∧ ((verify_sheet_music env).raised = true →
       closeCount (verify_sheet_music env).trace = 0) := by
  have h3 := (bodyRun_spec env).2.2.1
  constructor <;> intro hr <;> rw [trace_raised] at hr <;>
    rw [trace_closeCount, h3, hr] <;> simp

/-- C1 witness: on the all-success environment the run does not raise and
closes the handle exactly once. -/
theorem browser_close_only_on_success_witness :
    closeCount (verify_sheet_music envAll).trace = 1 :=
  (browser_close_only_on_success envAll).1 rfl

/-- C2 counterexample: when all 10 navigation attempts fail, the run does
not stop at the connection stage: the title wait is still executed (no
`TargetUnreachable`-like condition is raised after the attempts), and a
2000 ms sleep occurs after every one of the 10 attempts — 10 sleeps, not
9 inter-attempt gaps. -/
theorem no_unreachable_condition_after_retries :
    Event.waitForSelector titleSelector none ∈ (verify_sheet_music envNoGoto).trace
  ∧ sleepCount (verify_sheet_music envNoGoto).trace = 10 := by decide

/-- C2 (amended): with every attempt failing, exactly 10 attempts occur,
each followed by the 2000 ms delay (including the last); nothing is
raised at the connection stage — the run proceeds to the title wait — and
the failure status with no artifacts arises only when that later wait
fails. -/
theorem retries_exhaust_silently (env : Env) (hg : ∀ i, env.gotoOk i = false) :
    gotoCount (verify_sheet_music env).trace = 10
  ∧ sleepCount (verify_sheet_music env).trace = 10
  ∧ Event.waitForSelector titleSelector none ∈ (verify_sheet_music env).trace
  ∧ (env.titleOk = false →
      (verify_sheet_music env).raised = true ∧
      artifactPaths (verify_sheet_music env).trace = []) := by
  have hc : connectLoop env.gotoOk 0 10 = failedConnTrace 0 10 :=
    connectLoop_all_fail env.gotoOk hg 0 10
  refine ⟨?_, ?_, ?_, ?_⟩
  · rw [trace_gotoCount, hc]; decide
  · rw [trace_sleepCount, hc]; decide
  · have h6 := (bodyRun_spec env).2.2.2.2.2.1
    have hm : Event.waitForSelector titleSelector none ∈ (bodyRun env).trace :=
      List.take_subset 2 _ (by rw [h6]; simp)
    exact List.mem_append.mpr (Or.inr hm)
  · intro ht
    have hr := bodyRun_raised_of_titleFail env ht
    exact ⟨by rw [trace_raised]; exact hr,
           by rw [trace_artifacts]; exact (bodyRun_spec env).2.2.2.1 hr⟩

/-- C2 witness: the all-attempts-fail environment realizes the amended
claim: 10 attempts, the title wait then fails and no artifact is
written. -/
theorem retries_exhaust_silently_witness :
    gotoCount (verify_sheet_music envNoGoto).trace = 10
  ∧ artifactPaths (verify_sheet_music envNoGoto).trace = [] :=
  ⟨(retries_exhaust_silently envNoGoto (fun _ => rfl)).1,
   ((retries_exhaust_silently envNoGoto (fun _ => rfl)).2.2.2 rfl).2⟩

/-- C3 counterexample: the title wait is not guarded: when it times out,
the exception escapes the harness — the run's last event is that wait and
`raised = true`, so this wait did not return a definite outcome to a
caller. -/
theorem title_wait_raises_past_boundary :
    (verify_sheet_music envNoTitle).raised = true ∧
    (verify_sheet_music envNoTitle).trace.getLast? =
      some (Event.waitForSelector titleSelector none) := by decide

/-- C3 (amended): only the toast and svg waits are guarded — their
timeouts are absorbed and the run terminates normally whatever their
outcome; the title wait, by contrast, raises past the harness on timeout,
terminating the run right after the wait event. -/
theorem guarded_waits_never_raise (env : Env) :
    (env.titleOk = true → env.clickSourceOk = true → env.fillUrlOk = true →
       env.clickLoadOk = true → (verify_sheet_music env).raised = false)
  ∧ (env.titleOk = false →
       (verify_sheet_music env).raised = true ∧
       (verify_sheet_music env).trace =
         startEvents ++ connectLoop env.gotoOk 0 10 ++
           [Event.log "Waiting for title...",
            Event.waitForSelector titleSelector none]) := by
  constructor
  · intro h1 h2 h3 h4
    rw [trace_raised]
    exact (bodyRun_spec env).2.2.2.2.2.2.mpr ⟨h1, h2, h3, h4⟩
  · intro ht
    refine ⟨by rw [trace_raised]; exact bodyRun_raised_of_titleFail env ht, ?_⟩
    show startEvents ++ connectLoop env.gotoOk 0 10 ++ (bodyRun env).trace = _
    congr 1
    simp [bodyRun, ht]

/-- C3 witness: both guarded waits time out, yet the run terminates
normally. -/
theorem guarded_waits_never_raise_witness :
    (verify_sheet_music envNoToastSvg).raised = false :=
  (guarded_waits_never_raise envNoToastSvg).1 rfl rfl rfl rfl

/-- C4 counterexample: the svg wait (the wait for the primary rendered
output) times out, the full-page capture still happens, but the run
terminates normally — not with a failure status as the claim requires. -/
theorem normal_exit_despite_svg_timeout :
    envNoSvg.svgOk = false
  ∧ (verify_sheet_music envNoSvg).raised = false
  ∧ fullShotPath ∈ artifactPaths (verify_sheet_music envNoSvg).trace := by decide

/-- C4 (amended): when the scripted interaction reaches the capture stage
the full-page artifact is always written and the run terminates normally,
even if the svg wait failed; the only wait whose failure terminates the
run abnormally is the title wait, and that exit path writes no artifact at
all. -/
theorem svg_wait_failure_still_captures (env : Env) :
    (env.titleOk = true → env.clickSourceOk = true → env.fillUrlOk = true →
       env.clickLoadOk = true →
       fullShotPath ∈ artifactPaths (verify_sheet_music env).trace ∧
       (verify_sheet_music env).raised = false)
  ∧ (env.titleOk = false →
       (verify_sheet_music env).raised = true ∧
       artifactPaths (verify_sheet_music env).trace = []) := by
  constructor
  · intro h1 h2 h3 h4
    have hr : (bodyRun env).raised = false :=
      (bodyRun_spec env).2.2.2.2.2.2.mpr ⟨h1, h2, h3, h4⟩
    have ha := (bodyRun_spec env).2.2.2.2.1 hr
    refine ⟨?_, by rw [trace_raised]; exact hr⟩
    rw [trace_artifacts, ha]
    split <;> simp
  · intro ht
    have hr := bodyRun_raised_of_titleFail env ht
    exact ⟨by rw [trace_raised]; exact hr,
           by rw [trace_artifacts]; exact (bodyRun_spec env).2.2.2.1 hr⟩

/-- C4 witness: with the svg wait failing, the full-page artifact is
written. -/
theorem svg_wait_failure_still_captures_witness :
    fullShotPath ∈ artifactPaths (verify_sheet_music envNoSvg).trace :=
  ((svg_wait_failure_still_captures envNoSvg).1 rfl rfl rfl rfl).1

/-- C5: a toast-wait timeout does not abort the step sequence — the svg
wait, the full-page capture, the (conditional) detail capture and the
browser close all still execute, and the run terminates normally. -/
theorem toast_timeout_does_not_abort (env : Env)
    (h1 : env.titleOk = true) (h2 : env.clickSourceOk = true)
    (h3 : env.fillUrlOk = true) (h4 : env.clickLoadOk = true)
    (h5 : env.toastOk = false) :
    Event.waitForSelector svgSelector (some 15000) ∈ (verify_sheet_music env).trace
  ∧ Event.screenshotFull fullShotPath ∈ (verify_sheet_music env).trace
  ∧ (0 < env.detailCount →
       Event.screenshotElement detailShotPath ∈ (verify_sheet_music env).trace)
  ∧ Event.closeBrowser ∈ (verify_sheet_music env).trace
  ∧ (verify_sheet_music env).raised = false := by
  obtain ⟨g, t, c1, f, c2, tw, sv, dc⟩ := env
  simp only at h1 h2 h3 h4 h5
  subst h1; subst h2; subst h3; subst h4; subst h5
  have hbody : ∀ e : Event,
      e ∈ (bodyRun ⟨g, true, true, true, true, false, sv, dc⟩).trace →
      e ∈ (verify_sheet_music ⟨g, true, true, true, true, false, sv, dc⟩).trace :=
    fun e he => List.mem_append.mpr (Or.inr he)
  refine ⟨hbody _ ?_, hbody _ ?_, fun hdc => hbody _ ?_, hbody _ ?_, ?_⟩ <;>
    cases sv <;> by_cases hdc2 : 0 < dc <;>
      simp_all [bodyRun, trace_raised]

/-- C5 witness: with everything else succeeding and the toast wait timing
out, the browser close (last step) still executes. -/
theorem toast_timeout_does_not_abort_witness :
    Event.closeBrowser ∈ (verify_sheet_music envNoToast).trace :=
  (toast_timeout_does_not_abort envNoToast rfl rfl rfl rfl rfl).2.2.2.1

/-- C6 counterexample: with the detail locator matching zero elements,
the skip is NOT logged: the run's complete log output is exactly the
messages below, which contain no mention of the skipped capture; the skip
is silent (the only detail-related message, "Detail screenshot taken.",
is absent, and nothing replaces it). -/
theorem detail_skip_not_logged :
    artifactPaths (verify_sheet_music envNoDetail).trace = [fullShotPath]
  ∧ (verify_sheet_music envNoDetail).raised = false
  ∧ logMessages (verify_sheet_music envNoDetail).trace =
      ["Connecting to localhost:3000", "Waiting for title...", "App loaded.",
       "Video loading initiated...", "Video loaded toast confirmed.",
       "SVG element found.", "Full page screenshot taken."] := by decide

/-- C6 (amended): element-scoped capture is best-effort but the skip is
silent: a zero-match run's trace is exactly the common trace followed by
the close — `detailSection 0 = []`, so no log entry records the skip —
and it is never escalated (`raised = false`); with at least one match the
image is written to the detail destination path. -/
theorem detail_capture_best_effort (env : Env)
    (h1 : env.titleOk = true) (h2 : env.clickSourceOk = true)
    (h3 : env.fillUrlOk = true) (h4 : env.clickLoadOk = true) :
    (∀ dc, (verify_sheet_music { env with detailCount := dc }).trace
       = commonTrace env ++ detailSection dc ++ [Event.closeBrowser])
  ∧ (∀ dc, (verify_sheet_music { env with detailCount := dc }).raised = false)
  ∧ detailSection 0 = []
  ∧ (∀ dc, 0 < dc → detailSection dc
       = [Event.screenshotElement detailShotPath,
          Event.log "Detail screenshot taken."])
  ∧ (∀ dc, 0 < dc →
       detailShotPath ∈
         artifactPaths (verify_sheet_music { env with detailCount := dc }).trace) := by
  obtain ⟨g, t, c1, f, c2, tw, sv, dc0⟩ := env
  simp only at h1 h2 h3 h4
  subst h1; subst h2; subst h3; subst h4
  refine ⟨?_, ?_, rfl, ?_, ?_⟩
  · intro dc
    cases tw <;> cases sv <;> by_cases hdc : 0 < dc <;>
      simp [verify_sheet_music, bodyRun, commonTrace, detailSection, hdc, startEvents]
  · intro dc
    rw [trace_raised]
    exact (bodyRun_spec _).2.2.2.2.2.2.mpr ⟨rfl, rfl, rfl, rfl⟩
  · intro dc hdc
    simp [detailSection, hdc]
  · intro dc hdc
    rw [trace_artifacts]
    have hr : (bodyRun ⟨g, true, true, true, true, tw, sv, dc⟩).raised = false :=
      (bodyRun_spec _).2.2.2.2.2.2.mpr ⟨rfl, rfl, rfl, rfl⟩
    rw [(bodyRun_spec _).2.2.2.2.1 hr]
    simp [hdc]

/-- C6 witness: zero matches add nothing to the trace (no skip log), one
match writes the detail artifact. -/
theorem detail_capture_best_effort_witness :
    (verify_sheet_music { envAll with detailCount := 0 }).trace
      = commonTrace envAll ++ detailSection 0 ++ [Event.closeBrowser]
  ∧ detailSection 0 = ([] : List Event)
  ∧ detailShotPath ∈
      artifactPaths (verify_sheet_music { envAll with detailCount := 1 }).trace :=
  ⟨(detail_capture_best_effort envAll rfl rfl rfl rfl).1 0,
   (detail_capture_best_effort envAll rfl rfl rfl rfl).2.2.1,
   (detail_capture_best_effort envAll rfl rfl rfl rfl).2.2.2.2 1 (by decide)⟩

/-- C7: the step sequence is strictly serial: the run's action events
(waits, clicks, fill, captures, close) always form a duplicate-free
sublist of the scripted order — each step is consumed at most once, in
order, and never retried — only the navigation attempt repeats, at most
10 times; on a fully successful run every scripted step is consumed
exactly once, in order. -/
theorem steps_strictly_serial (env : Env) :
    ((verify_sheet_music env).trace.filter isActionEvent).Sublist scriptedSteps
  ∧ ((verify_sheet_music env).trace.filter isActionEvent).Nodup
  ∧ scriptedSteps.Nodup
  ∧ gotoCount (verify_sheet_music env).trace ≤ 10
  ∧ (env.titleOk = true → env.clickSourceOk = true → env.fillUrlOk = true →
      env.clickLoadOk = true → 0 < env.detailCount →
      (verify_sheet_music env).trace.filter isActionEvent = scriptedSteps) := by
  have hfil : (verify_sheet_music env).trace.filter isActionEvent
      = (bodyRun env).trace.filter isActionEvent := by
    show ((startEvents ++ connectLoop env.gotoOk 0 10 ++ (bodyRun env).trace).filter _) = _
    rw [List.filter_append, List.filter_append,
      connectLoop_filter env.gotoOk isActionEvent
        (fun _ => rfl) (fun _ => rfl) (fun _ => rfl)]
    simp [startEvents, isActionEvent]
  have h := bodyRun_filter_action env
  refine ⟨by rw [hfil]; exact h.1, by rw [hfil]; exact h.2.1, by decide, ?_,
    fun h1 h2 h3 h4 h5 => by rw [hfil]; exact h.2.2 h1 h2 h3 h4 h5⟩
  rw [trace_gotoCount]
  exact connectLoop_gotoCount_le env.gotoOk 0 10

/-- C7 witness: on the all-success environment every scripted step is
consumed exactly once, in order. -/
theorem steps_strictly_serial_witness :
    (verify_sheet_music envAll).trace.filter isActionEvent = scriptedSteps :=
  (steps_strictly_serial envAll).2.2.2.2 rfl rfl rfl rfl (by decide)

/-- C8 counterexample: in an environment where the title wait fails, a
run writes no artifacts at all and performs zero `browser.close()` calls
— the handle is not released by the script between runs, contrary to the
claim's leak-freedom for every same-state pair of runs. -/
theorem failed_run_leaks_handle :
    artifactPaths (verify_sheet_music envNoTitle).trace = []
  ∧ closeCount (verify_sheet_music envNoTitle).trace = 0
  ∧ (verify_sheet_music envNoTitle).raised = true := by decide

/-- C8 (amended): artifact destinations are fixed constants of the
script, so any two runs that terminate normally (in particular two runs
in the same environment — the run function is deterministic) write the
same destination paths, the second overwriting the first, and each such
run closes the browser exactly once; runs on which a failure surfaces
close nothing. -/
theorem artifact_paths_fixed (env : Env)
    (hr : (verify_sheet_music env).raised = false) :
    artifactPaths (verify_sheet_music env).trace =
      (if 0 < env.detailCount then [fullShotPath, detailShotPath]
       else [fullShotPath])
  ∧ closeCount (verify_sheet_music env).trace = 1 := by
  rw [trace_raised] at hr
  refine ⟨by rw [trace_artifacts]; exact (bodyRun_spec env).2.2.2.2.1 hr, ?_⟩
  rw [trace_closeCount, (bodyRun_spec env).2.2.1, hr]
  simp

/-- C8 witness: the all-success run writes both fixed paths and closes
the browser exactly once. -/
theorem artifact_paths_fixed_witness :
    artifactPaths (verify_sheet_music envAll).trace = [fullShotPath, detailShotPath]
  ∧ closeCount (verify_sheet_music envAll).trace = 1 :=
  ⟨((artifact_paths_fixed envAll rfl).1).trans (by decide),
   (artifact_paths_fixed envAll rfl).2⟩

/-- C9: when every navigation attempt fails, the retry loop exhausts
silently: its trace is exactly 10 attempt/log/sleep triples — its last
event is the full 2000 ms sleep — no outcome is recorded or checked, the
body the run then executes is literally the one it would execute had
navigation succeeded, and it begins with the title wait. -/
theorem retry_loop_falls_through (env : Env) (hg : ∀ i, env.gotoOk i = false) :
    (verify_sheet_music env).trace =
      startEvents ++ failedConnTrace 0 10 ++ (bodyRun env).trace
  ∧ (failedConnTrace 0 10).getLast? = some (Event.sleepMs 2000)
  ∧ gotoCount (failedConnTrace 0 10) = 10
  ∧ bodyRun env = bodyRun { env with gotoOk := fun _ => true }
  ∧ (bodyRun env).trace.take 2 =
      [Event.log "Waiting for title...",
       Event.waitForSelector titleSelector none] := by
  refine ⟨?_, by decide, by decide, ?_, (bodyRun_spec env).2.2.2.2.2.1⟩
  · show startEvents ++ connectLoop env.gotoOk 0 10 ++ (bodyRun env).trace = _
    rw [connectLoop_all_fail env.gotoOk hg 0 10]
  · obtain ⟨g, t, c1, f, c2, tw, sv, dc⟩ := env
    rfl

/-- C9 witness: instantiated on the all-attempts-fail environment. -/
theorem retry_loop_falls_through_witness :
    (verify_sheet_music envNoGoto).trace =
      startEvents ++ failedConnTrace 0 10 ++ (bodyRun envNoGoto).trace :=
  (retry_loop_falls_through envNoGoto (fun _ => rfl)).1

/-- C10: verify.py's `run()` performs exactly one navigation attempt and
no selector wait whatsoever; when the navigation succeeds its whole
behavior is: navigate to port 4173, sleep 2 seconds, write the single
full-page screenshot to verification/screenshot.png, close the browser,
terminate normally. -/
theorem run_single_shot (env : EnvV) :
    gotoCount (run env).trace = 1
  ∧ waitCount (run env).trace = 0
  ∧ (env.gotoOk = true →
      run env = ⟨[Event.launchBrowser, Event.newPage,
                  Event.gotoAttempt "http://localhost:4173",
                  Event.sleepMs 2000,
                  Event.screenshotFull "verification/screenshot.png",
                  Event.closeBrowser], false⟩) := by
  obtain ⟨g⟩ := env
  cases g <;> decide

/-- C10 witness: the successful-navigation run realizes the full trace. -/
theorem run_single_shot_witness :
    run ⟨true⟩ = ⟨[Event.launchBrowser, Event.newPage,
                  Event.gotoAttempt "http://localhost:4173",
                  Event.sleepMs 2000,
                  Event.screenshotFull "verification/screenshot.png",
                  Event.closeBrowser], false⟩ :=
  (run_single_shot ⟨true⟩).2.2 rfl

end MusicNoteVerification
